import Mathlib

/-!
Verification of `backend/search_routes.py`, a script that reads `server.js`
into a list of lines and runs three independent filter-and-print passes over
it, each printing a fixed header followed by `Line {i}: {line.strip()}` for
every matching line.

The embedding models the file contents as a `List String` (one element per
line, raw text), the Python substring test `pat in line` as decidable list
infix containment on the character lists, `line.strip()` as dropping the
Python whitespace characters from both ends, and the program's standard
output as the list of strings passed to `print`, in order.
-/

/-- The whitespace characters removed by Python's `str.strip()`. -/
def isPySpace (c : Char) : Bool :=
  c == ' ' || c == '\t' || c == '\n' || c == '\r' || c == '\x0b' || c == '\x0c'

/-- Python `line.strip()`: remove leading and trailing whitespace. -/
def pyStrip (s : String) : String :=
  ⟨((s.data.dropWhile isPySpace).reverse.dropWhile isPySpace).reverse⟩

/-- Python `pat in line`: substring containment, case-sensitive and exact. -/
def pyContains (line pat : String) : Bool :=
  decide (pat.data <:+: line.data)

/-- Pass 1 filter: `'require' in line and ('routes/' in line or 'Routes' in line)`. -/
def pass1Pred (line : String) : Bool :=
  pyContains line "require" && (pyContains line "routes/" || pyContains line "Routes")

/-- Pass 2 filter: `'app.use' in line and ('/api' in line or 'Routes' in line)`. -/
def pass2Pred (line : String) : Bool :=
  pyContains line "app.use" && (pyContains line "/api" || pyContains line "Routes")

/-- Pass 3 filter: `any(route in line for route in ['ai-chat', 'document-analyzer', 'geocoding'])`. -/
def pass3Pred (line : String) : Bool :=
  pyContains line "ai-chat" || pyContains line "document-analyzer" || pyContains line "geocoding"

/-- Python `enumerate(lines, 1)` starting at an arbitrary index. -/
def enumerateFrom : Nat → List String → List (Nat × String)
  | _, [] => []
  | n, l :: ls => (n, l) :: enumerateFrom (n + 1) ls

/-- The numbered line records matched by Pass 1, in file order. -/
def pass1Matches (lines : List String) : List (Nat × String) :=
  (enumerateFrom 1 lines).filter (fun p => pass1Pred p.2)

/-- The numbered line records matched by Pass 2, in file order. -/
def pass2Matches (lines : List String) : List (Nat × String) :=
  (enumerateFrom 1 lines).filter (fun p => pass2Pred p.2)

/-- The numbered line records matched by Pass 3, in file order. -/
def pass3Matches (lines : List String) : List (Nat × String) :=
  (enumerateFrom 1 lines).filter (fun p => pass3Pred p.2)

/-- The f-string `f"Line {i}: {line.strip()}"` printed for a match. -/
def fmtMatch (p : Nat × String) : String :=
  "Line " ++ toString p.1 ++ ": " ++ pyStrip p.2

/-- The Pass 1 header string passed to `print`. -/
def header1 : String := "=== Route imports (require statements) ==="

/-- The Pass 2 header string passed to `print` (with its leading blank line). -/
def header2 : String := "\n=== Route mounting (app.use statements) ==="

/-- The Pass 3 header string passed to `print` (with its leading blank line). -/
def header3 : String := "\n=== Specific route files mentioned ==="

/-- The full standard output of a run on a successfully read file, as the
ordered list of strings passed to `print`. -/
def run (lines : List String) : List String :=
  header1 :: (pass1Matches lines).map fmtMatch
    ++ header2 :: (pass2Matches lines).map fmtMatch
    ++ header3 :: (pass3Matches lines).map fmtMatch

/-- The whole program: `open('server.js')` either fails (`none`: the file is
missing or unreadable, nothing is printed, the interpreter exits nonzero,
modelled as `Except.error`) or yields the file's lines, after which the three
passes print `run lines` and the program exits 0 (`Except.ok`). -/
def runProgram : Option (List String) → Except Unit (List String)
  | none => Except.error ()
  | some lines => Except.ok (run lines)

/-- The program together with the inputs it never consults: command-line
arguments and the environment. The script's module body reads neither
(`sys.argv` and `os.environ` are never touched), so they do not occur in the
body's translation. -/
def runWithEnv (file : Option (List String))
    (_args : List String) (_env : List (String × String)) : Except Unit (List String) :=
  runProgram file

/-- The concrete scenario file: its only nonempty line is line 5. -/
def scenarioFile : List String :=
  ["", "", "", "", "const aiChatRoutes = require('./routes/ai-chat');"]

/-- C1: a line record is reported under Pass 1 iff its text contains the
substring `require` and at least one of `routes/` or `Routes`. -/
theorem pass1_reported_iff (lines : List String) (i : Nat) (l : String) :
    (i, l) ∈ pass1Matches lines ↔
      (i, l) ∈ enumerateFrom 1 lines ∧
        ("require".data <:+: l.data ∧
          ("routes/".data <:+: l.data ∨ "Routes".data <:+: l.data)) := by
  simp [pass1Matches, List.mem_filter, pass1Pred, pyContains]

/-- C2: a line record is reported under Pass 2 iff its text contains the
substring `app.use` and at least one of `/api` or `Routes`. -/
theorem pass2_reported_iff (lines : List String) (i : Nat) (l : String) :
    (i, l) ∈ pass2Matches lines ↔
      (i, l) ∈ enumerateFrom 1 lines ∧
        ("app.use".data <:+: l.data ∧
          ("/api".data <:+: l.data ∨ "Routes".data <:+: l.data)) := by
  simp [pass2Matches, List.mem_filter, pass2Pred, pyContains]

/-- C3: a line record is reported under Pass 3 iff its text contains at least
one of the substrings `ai-chat`, `document-analyzer`, `geocoding`
(case-sensitive exact substring containment). -/
theorem pass3_reported_iff (lines : List String) (i : Nat) (l : String) :
    (i, l) ∈ pass3Matches lines ↔
      (i, l) ∈ enumerateFrom 1 lines ∧
        ("ai-chat".data <:+: l.data ∨ "document-analyzer".data <:+: l.data ∨
          "geocoding".data <:+: l.data) := by
  simp [pass3Matches, List.mem_filter, pass3Pred, pyContains, or_assoc]

/-- C6: when the file cannot be opened the program prints nothing and fails
(nonzero exit), and the read is the only operation that can fail: every
successful read yields a normal completed run. -/
theorem missing_file_behavior :
    runProgram none = Except.error () ∧
      ∀ lines, runProgram (some lines) = Except.ok (run lines) :=
  ⟨rfl, fun _ => rfl⟩

/-- C7: the output is a deterministic function of the file contents alone;
command-line arguments and the environment never affect it, and two runs on
the same contents are identical. -/
theorem output_deterministic (file : Option (List String))
    (a₁ a₂ : List String) (v₁ v₂ : List (String × String)) :
    runWithEnv file a₁ v₁ = runWithEnv file a₂ v₂ :=
  rfl

/-- C8: for the file whose only relevant line is
`const aiChatRoutes = require('./routes/ai-chat');` at line 5, that line is
reported under Pass 1 and Pass 3 but not under Pass 2. -/
theorem scenario_line5 :
    (5, "const aiChatRoutes = require('./routes/ai-chat');") ∈ pass1Matches scenarioFile ∧
      (5, "const aiChatRoutes = require('./routes/ai-chat');") ∈ pass3Matches scenarioFile ∧
      (5, "const aiChatRoutes = require('./routes/ai-chat');") ∉ pass2Matches scenarioFile := by
  decide

/-- Every formatted match line starts with the character `L`. -/
lemma fmtMatch_head (p : Nat × String) : (fmtMatch p).data.head? = some 'L' := by
  have h : ("Line " : String) = ⟨'L' :: "ine ".data⟩ := rfl
  simp [fmtMatch, String.data_append, h]

/-- A formatted match line is never one of the three section headers. -/
lemma fmtMatch_not_header (p : Nat × String) :
    (fmtMatch p == header1 || fmtMatch p == header2 || fmtMatch p == header3) = false := by
  have h := fmtMatch_head p
  simp only [Bool.or_eq_false_iff, beq_eq_false_iff_ne, ne_eq]
  refine ⟨⟨?_, ?_⟩, ?_⟩ <;> intro he <;> rw [he] at h <;>
    exact absurd h (by decide)

/-- No formatted match line survives the header filter. -/
lemma filter_header_map_fmtMatch (m : List (Nat × String)) :
    ((m.map fmtMatch).filter
      (fun s => s == header1 || s == header2 || s == header3)) = [] := by
  refine List.filter_eq_nil_iff.mpr ?_
  intro s hs
  obtain ⟨p, _, rfl⟩ := List.mem_map.mp hs
  simp [fmtMatch_not_header p]

/-- C4: every run prints exactly the three fixed header lines, in fixed
order, whatever the file contains; the empty file yields exactly the three
headers and nothing else, and the run succeeds. -/
theorem headers_exactly_three (lines : List String) :
    (run lines).filter (fun s => s == header1 || s == header2 || s == header3)
        = [header1, header2, header3] ∧
      runProgram (some []) = Except.ok [header1, header2, header3] := by
  constructor
  · simp [run, List.filter_append, List.filter_cons, filter_header_map_fmtMatch]
  · rfl

/-- Every line number produced by `enumerateFrom n` is at least `n`. -/
lemma enumerateFrom_le (n : Nat) (ls : List String) :
    ∀ p ∈ enumerateFrom n ls, n ≤ p.1 := by
  induction ls generalizing n with
  | nil => simp [enumerateFrom]
  | cons l ls ih =>
    intro p hp
    rcases (by simpa [enumerateFrom] using hp : p = (n, l) ∨ p ∈ enumerateFrom (n + 1) ls) with
      rfl | hp'
    · exact Nat.le_refl n
    · exact Nat.le_of_succ_le (ih (n + 1) p hp')

/-- The numbering produced by `enumerateFrom` is strictly increasing. -/
lemma enumerateFrom_pairwise (n : Nat) (ls : List String) :
    (enumerateFrom n ls).Pairwise (fun a b => a.1 < b.1) := by
  induction ls generalizing n with
  | nil => exact List.Pairwise.nil
  | cons l ls ih =>
    exact List.Pairwise.cons
      (fun p hp => Nat.lt_of_lt_of_le (Nat.lt_succ_self n) (enumerateFrom_le (n + 1) ls p hp))
      (ih (n + 1))

/-- C5: within each of the three sections, the printed line numbers are
strictly increasing (ascending file order). -/
theorem section_numbers_increasing (lines : List String) :
    ((pass1Matches lines).map Prod.fst).Pairwise (· < ·) ∧
      ((pass2Matches lines).map Prod.fst).Pairwise (· < ·) ∧
      ((pass3Matches lines).map Prod.fst).Pairwise (· < ·) := by
  refine ⟨?_, ?_, ?_⟩ <;>
    exact List.pairwise_map.mpr ((enumerateFrom_pairwise 1 lines).filter _)

/-- Stripping a leading run of whitespace never creates or destroys an
occurrence of a nonempty whitespace-free needle. -/
lemma infix_dropWhile_iff (needle xs : List Char) (hne : needle ≠ [])
    (hnp : ∀ a ∈ needle, isPySpace a = false) :
    needle <:+: xs.dropWhile isPySpace ↔ needle <:+: xs := by
  constructor
  · intro h
    exact h.trans (List.dropWhile_suffix isPySpace).isInfix
  · intro h
    induction xs with
    | nil => simpa using h
    | cons c xs ih =>
      by_cases hc : isPySpace c = true
      · rw [List.dropWhile_cons, if_pos hc]
        apply ih
        rcases List.infix_cons_iff.mp h with hpre | hinf
        · exfalso
          obtain ⟨a, t, rfl⟩ := List.exists_cons_of_ne_nil hne
          obtain ⟨u, hu⟩ := hpre
          have hac : a = c := by
            have := congrArg List.head? hu
            simpa using this
          have := hnp a (List.mem_cons_self a t)
          rw [hac, hc] at this
          exact absurd this (by decide)
        · exact hinf
      · rwa [List.dropWhile_cons, if_neg hc]

/-- An occurrence in a reversed list is a reversed occurrence. -/
lemma infix_reverse_iff (x y : List Char) : x <:+: y.reverse ↔ x.reverse <:+: y := by
  constructor
  · intro h
    simpa using List.reverse_infix.mpr h
  · intro h
    simpa using List.reverse_infix.mpr h

/-- A nonempty whitespace-free needle occurs in `pyStrip s` iff it occurs in
`s`: stripping removes only boundary whitespace, which the needle cannot
touch. -/
lemma infix_pyStrip_iff (needle : List Char) (s : String) (hne : needle ≠ [])
    (hnp : ∀ a ∈ needle, isPySpace a = false) :
    needle <:+: (pyStrip s).data ↔ needle <:+: s.data := by
  show needle <:+: ((s.data.dropWhile isPySpace).reverse.dropWhile isPySpace).reverse ↔ _
  rw [infix_reverse_iff,
    infix_dropWhile_iff needle.reverse _ (by simpa using hne) (by simpa using hnp),
    ← infix_reverse_iff, List.reverse_reverse,
    infix_dropWhile_iff needle _ hne hnp]

/-- `pyContains` is invariant under `pyStrip` for a nonempty whitespace-free
search pattern. -/
lemma pyContains_pyStrip (l pat : String) (hne : pat.data ≠ [])
    (hnp : ∀ a ∈ pat.data, isPySpace a = false) :
    pyContains (pyStrip l) pat = pyContains l pat :=
  decide_eq_decide.mpr (infix_pyStrip_iff pat.data l hne hnp)

/-- C10: every fixed search substring is whitespace-free, so each pass's
predicate gives the same answer on a line's raw text as on its stripped
text: surrounding whitespace never changes whether a line is reported. -/
theorem predicates_strip_invariant (l : String) :
    pass1Pred (pyStrip l) = pass1Pred l ∧
      pass2Pred (pyStrip l) = pass2Pred l ∧
      pass3Pred (pyStrip l) = pass3Pred l := by
  have h1 := pyContains_pyStrip l "require" (by decide) (by decide)
  have h2 := pyContains_pyStrip l "routes/" (by decide) (by decide)
  have h3 := pyContains_pyStrip l "Routes" (by decide) (by decide)
  have h4 := pyContains_pyStrip l "app.use" (by decide) (by decide)
  have h5 := pyContains_pyStrip l "/api" (by decide) (by decide)
  have h6 := pyContains_pyStrip l "ai-chat" (by decide) (by decide)
  have h7 := pyContains_pyStrip l "document-analyzer" (by decide) (by decide)
  have h8 := pyContains_pyStrip l "geocoding" (by decide) (by decide)
  refine ⟨?_, ?_, ?_⟩ <;>
    simp only [pass1Pred, pass2Pred, pass3Pred, h1, h2, h3, h4, h5, h6, h7, h8]

/-- C9: once the read has succeeded the three passes cannot fail: for every
file contents the program completes normally, producing all three sections. -/
theorem passes_never_fail (lines : List String) :
    runProgram (some lines) =
      Except.ok (header1 :: (pass1Matches lines).map fmtMatch
        ++ header2 :: (pass2Matches lines).map fmtMatch
        ++ header3 :: (pass3Matches lines).map fmtMatch) :=
  rfl
